import Mathlib

set_option maxRecDepth 10000

/-!
Verification development for the RCP scenario-modification pipeline of this
repository (modify_scenario.py together with the input-collection code in
climate_app.py).

The embedding models modify_scenario from the point where the baseline
scenario has been interpolated onto the fixed annual grid 2000..2100
(tgrid, 101 columns; column k stands for year 2000 + k).  A wide-format
data frame is a list of rows; each row carries the seven metadata index
levels used by the source (climate_model, model, region, scenario, todo,
unit, variable) plus its 101 values.  Machine floats are modelled by exact
rationals.  The final pymagicc invocation is the external simulator oracle
and is outside the modelled core.
-/

namespace ModifyScenario

/-! ### Phase-in schedule construction (modify_scenario.py lines 69-79) -/

/-- start_index = 25: the ramp starts at grid index 25, i.e. year 2025. -/
def start_index : ℕ := 25

/-- target_index = target_year - 2000 (line 72). -/
def target_index (ty : ℕ) : ℕ := ty - 2000

/-- ramp_duration = target_index - start_index + 1 (line 73). -/
def ramp_duration (ty : ℕ) : ℕ := target_index ty - start_index + 1

/-- Entry j of np.linspace(start=0, stop=r, num) (line 75): num evenly
spaced values from 0 to r inclusive.  For num = 1 numpy returns the single
value 0 (the start point), not r. -/
def linspace (r : ℚ) (num : ℕ) (j : ℕ) : ℚ :=
  if num ≤ 1 then 0 else r * j / ((num : ℚ) - 1)

/-- Entry k of one region's row of the R_phase array after the two slice
assignments of lines 77-79: the array starts as zeros, indices
start_index..target_index receive the linspace ramp, and indices from
target_index + 1 on receive r.  (Valid for target years at or after 2000,
where the Python index arithmetic stays non-negative.) -/
def R_phase (r : ℚ) (ty : ℕ) (k : ℕ) : ℚ :=
  if start_index ≤ k ∧ k ≤ target_index ty then
    linspace r (ramp_duration ty) (k - start_index)
  else if target_index ty + 1 ≤ k then r
  else 0

/-- Building one region's schedule row, with the two incidental numpy
failure modes of lines 75-78 made explicit: np.linspace raises for a
negative sample count (ramp_duration < 0, i.e. target year at most 2023),
and the slice assignment raises a broadcast error when the ramp does not
fit into the 101 columns (target year beyond 2100).  There is no input
validation anywhere in modify_scenario. -/
def build_R_phase_row (r : ℚ) (ty : ℕ) : Except String (ℕ → ℚ) :=
  if ty ≤ 2023 then .error "ValueError: number of samples must be nonnegative"
  else if 2100 < ty then .error "ValueError: could not broadcast input array"
  else .ok (R_phase r ty)

/-- Elementwise scaling of a value list by (1 - R_phase), starting at grid
index k: the helper recursion behind line 106, reg_C02 *= (1 - R_phase). -/
def scaleFrom (r : ℚ) (ty : ℕ) : ℕ → List ℚ → List ℚ
  | _, [] => []
  | k, v :: rest => v * (1 - R_phase r ty k) :: scaleFrom r ty (k + 1) rest

/-- One adjusted series: original values times (1 - schedule), elementwise
by grid index (line 106 applied to a single data-frame row). -/
def adjustSeries (vals : List ℚ) (r : ℚ) (ty : ℕ) : List ℚ :=
  scaleFrom r ty 0 vals

/-! ### The wide-format data frame (modify_scenario.py lines 84-149) -/

/-- One timeseries row of the wide-format frame scen_t.timeseries(): the
seven metadata index levels in the order used by the source's IndexSlice
(lines 93-101), plus the 101 annual values. -/
structure Row where
  climate_model : String
  model : String
  region : String
  scenario : String
  todo : String
  unit : String
  variable_name : String
  values : List ℚ
deriving DecidableEq

/-- var (line 49): the tracked fossil CO2 variable. -/
def var : String := "Emissions|CO2|MAGICC Fossil and Industrial"

/-- regions_to_modify, hard-coded at line 45.  Note the order: OECD first. -/
def regions_to_modify : List String :=
  ["World|R5OECD", "World|R5LAM", "World|R5MAF", "World|R5REF", "World|R5ASIA"]

/-- regions_to_replace = ['World'] + regions_to_modify (line 46). -/
def regions_to_replace : List String := "World" :: regions_to_modify

/-- REGIONS from climate_app.py lines 29-32: the order in which the caller
collects and passes the reduction-fraction and target-year vectors (also
the order stated in the modify_scenario docstring, lines 32-33). -/
def REGIONS : List String :=
  ["World|R5LAM", "World|R5MAF", "World|R5ASIA", "World|R5REF", "World|R5OECD"]

/-- START_YEAR from climate_app.py line 38. -/
def START_YEAR : ℕ := 2025

/-- END_YEAR from climate_app.py line 39. -/
def END_YEAR : ℕ := 2100

/-- Acceptance condition of the R-factor dialog loop in
climate_app.get_inputs_via_gui (line 189): 0.0 <= r <= 1.0. -/
def accepts_r (r : ℚ) : Prop := 0 ≤ r ∧ r ≤ 1

/-- Acceptance condition of the target-year dialog loop in
climate_app.get_inputs_via_gui (line 197): yr truthy and
START_YEAR <= yr <= END_YEAR. -/
def accepts_year (yr : ℕ) : Prop := yr ≠ 0 ∧ START_YEAR ≤ yr ∧ yr ≤ END_YEAR

/-- The row selection of lines 93-103: any climate_model, model, scenario
and todo; region not in {World|Bunkers, World}; unit Gt C / yr; the
tracked variable.  Row order of the frame is preserved by .loc. -/
def is_reg_CO2 (row : Row) : Bool :=
  !((["World|Bunkers", "World"] : List String).contains row.region) &&
    row.unit == "Gt C / yr" && row.variable_name == var

/-- reg_C02 before the scaling (lines 93-103). -/
def reg_CO2 (df : List Row) : List Row := df.filter is_reg_CO2

/-- Line 106, reg_C02 *= (1 - R_phase): pandas broadcasts the numpy array
positionally, so data-frame row i is multiplied by (1 - R_phase[i]), i.e.
by the schedule built from the i-th caller vector entries. -/
def adjustRegional (rows : List Row) (rs : List ℚ) (tys : List ℕ) : List Row :=
  List.zipWith
    (fun row rt => { row with values := adjustSeries row.values rt.1 rt.2 })
    rows (rs.zip tys)

/-- Column sum at grid index k over a list of rows. -/
def sumAt (rows : List Row) (k : ℕ) : ℚ :=
  (rows.map (fun row => row.values.getD k 0)).sum

/-- world_co2_series = reg_C02.sum() (line 112): the per-column sum of the
adjusted regional rows over the 101 grid columns (reindexing on tgrid at
line 133 is the identity on these columns). -/
def world_co2_series (rows : List Row) : List ℚ :=
  (List.range 101).map (sumAt rows)

/-- The rows dropped (and re-created) during reassembly: the tracked
variable for the six regions of regions_to_replace (lines 115-119). -/
def is_replace_row (row : Row) : Bool :=
  row.variable_name == var && regions_to_replace.contains row.region

/-- base_run = scen_t.filter(variable=var, region=regions_to_replace,
keep=False) (lines 115-119): everything except the six tracked rows. -/
def base_run (df : List Row) : List Row :=
  df.filter (fun row => !(is_replace_row row))

/-- replacement_meta_template = scen_t.filter(variable=var,
region=regions_to_replace) (line 124), in data-frame order. -/
def replacement_meta_template (df : List Row) : List Row :=
  df.filter is_replace_row

/-- world_meta (line 127): the World rows of the template. -/
def world_meta (tmpl : List Row) : List Row :=
  tmpl.filter (fun row => row.region == "World")

/-- pandas .loc[regs] on a region-indexed frame: for each requested label
in order, all rows bearing that label, in stored order. -/
def locRegions (rows : List Row) : List String → List Row
  | [] => []
  | reg :: rest => rows.filter (fun row => row.region == reg) ++ locRegions rows rest

/-- r5_meta_ordered (line 126): the non-World template rows re-ordered by
.loc[regions_to_modify], i.e. into the hard-coded order of line 45. -/
def r5_meta_ordered (tmpl : List Row) : List Row :=
  locRegions (tmpl.filter (fun row => regions_to_modify.contains row.region))
    regions_to_modify

/-- Lines 129-142: combined_meta = concat([world_meta, r5_meta_ordered]);
combined_values = vstack([world_co2_values_aligned, reg_C02.values]);
replacement_df_wide pairs metadata row i with value row i positionally. -/
def replacement_rows (df : List Row) (rs : List ℚ) (tys : List ℕ) : List Row :=
  List.zipWith (fun m v => { m with values := v })
    (world_meta (replacement_meta_template df) ++
      r5_meta_ordered (replacement_meta_template df))
    (world_co2_series (adjustRegional (reg_CO2 df) rs tys) ::
      (adjustRegional (reg_CO2 df) rs tys).map (fun row => row.values))

/-- new_run = base_run.append(rep_run) (line 149): the reassembled dataset
handed to the simulator. -/
def modify_scenario (df : List Row) (rs : List ℚ) (tys : List ℕ) : List Row :=
  base_run df ++ replacement_rows df rs tys

/-- The series of the first output row labeled with the given region and
the tracked variable. -/
def find_series (ds : List Row) (reg : String) : Option (List ℚ) :=
  (ds.find? (fun row => row.region == reg && row.variable_name == var)).map
    Row.values

/-- Predicate for the World row of the tracked variable. -/
def is_world_fossil (row : Row) : Bool :=
  row.region == "World" && row.variable_name == var

/-- Overwrite the values of the World fossil-CO2 row, leaving all other
rows and all metadata untouched (used to state that the recomputed World
series never reads the prior World values). -/
def set_world_values (w' : List ℚ) (row : Row) : Row :=
  if is_world_fossil row then { row with values := w' } else row

/-- A dataset with the prior World fossil-CO2 values replaced by w'. -/
def mapWorldValues (df : List Row) (w' : List ℚ) : List Row :=
  df.map (set_world_values w')

/-! ### A concrete resampled dataset used for witnesses and failing inputs.
Its five regional fossil-CO2 rows appear in the caller order documented in
the modify_scenario docstring (R5LAM, R5MAF, R5ASIA, R5REF, R5OECD), with
constant series 1,2,3,4,5; World is the constant 15, World|Bunkers 6, and
one Surface Temperature row rides along untouched. -/

/-- A fossil-CO2 row with a constant series. -/
def mkRow (reg : String) (c : ℚ) : Row :=
  { climate_model := "MAGICC6", model := "unspecified", region := reg,
    scenario := "rcp45", todo := "SET", unit := "Gt C / yr",
    variable_name := var, values := List.replicate 101 c }

/-- An untracked row (different variable) that must pass through. -/
def tempRow : Row :=
  { climate_model := "MAGICC6", model := "unspecified", region := "World",
    scenario := "rcp45", todo := "SET", unit := "K",
    variable_name := "Surface Temperature", values := List.replicate 101 0 }

/-- The concrete resampled dataset. -/
def df0 : List Row :=
  [mkRow "World" 15, mkRow "World|Bunkers" 6,
   mkRow "World|R5LAM" 1, mkRow "World|R5MAF" 2, mkRow "World|R5ASIA" 3,
   mkRow "World|R5REF" 4, mkRow "World|R5OECD" 5, tempRow]

/-- Caller reduction fractions in REGIONS order: full cut for R5LAM only. -/
def rs0 : List ℚ := [1, 0, 0, 0, 0]

/-- Caller target years in REGIONS order. -/
def tys0 : List ℕ := [2025, 2025, 2025, 2025, 2025]

/-! ### Schedule lemmas -/

lemma linspace_at_zero (r : ℚ) (num : ℕ) : linspace r num 0 = 0 := by
  by_cases h : num ≤ 1 <;> simp [linspace, h]

lemma linspace_num_le_one (r : ℚ) (num j : ℕ) (h : num ≤ 1) :
    linspace r num j = 0 := by
  simp [linspace, h]

lemma linspace_succ_eq (r : ℚ) (d j : ℕ) (hd : 1 ≤ d) :
    linspace r (d + 1) j = r * j / d := by
  have h : ¬ (d + 1 ≤ 1) := by omega
  rw [linspace, if_neg h]
  push_cast
  ring_nf

lemma ramp_duration_eq (ty : ℕ) (h : 2025 ≤ ty) :
    ramp_duration ty = (ty - 2025) + 1 := by
  unfold ramp_duration target_index start_index
  omega

lemma R_phase_before (r : ℚ) (ty k : ℕ) (h1 : 2025 ≤ ty) (hk : k < 25) :
    R_phase r ty k = 0 := by
  have hc : ¬ (start_index ≤ k ∧ k ≤ target_index ty) := by
    simp only [start_index, target_index]
    omega
  have hc2 : ¬ (target_index ty + 1 ≤ k) := by
    simp only [target_index]
    omega
  rw [R_phase, if_neg hc, if_neg hc2]

lemma R_phase_window (r : ℚ) (ty k : ℕ) (h1 : 2025 ≤ ty) (hk1 : 25 ≤ k)
    (hk2 : k ≤ ty - 2000) :
    R_phase r ty k = linspace r ((ty - 2025) + 1) (k - 25) := by
  have hc : start_index ≤ k ∧ k ≤ target_index ty := by
    simp only [start_index, target_index]
    omega
  rw [R_phase, if_pos hc, ramp_duration_eq ty h1]
  rfl

lemma R_phase_after (r : ℚ) (ty k : ℕ) (h1 : 2000 ≤ ty) (hk : ty - 2000 < k) :
    R_phase r ty k = r := by
  have hc : ¬ (start_index ≤ k ∧ k ≤ target_index ty) := by
    simp only [start_index, target_index]
    omega
  have hc2 : target_index ty + 1 ≤ k := by
    simp only [target_index]
    omega
  rw [R_phase, if_neg hc, if_pos hc2]

lemma R_phase_window_formula (r : ℚ) (ty k : ℕ) (h1 : 2026 ≤ ty)
    (hk1 : 25 ≤ k) (hk2 : k ≤ ty - 2000) :
    R_phase r ty k = r * (((k : ℚ) - 25) / ((ty : ℚ) - 2025)) := by
  have hd : 1 ≤ ty - 2025 := by omega
  rw [R_phase_window r ty k (by omega) hk1 hk2, linspace_succ_eq r _ _ hd]
  have c1 : ((k - 25 : ℕ) : ℚ) = (k : ℚ) - 25 := by
    have := Nat.cast_sub (R := ℚ) hk1
    simpa using this
  have c2 : ((ty - 2025 : ℕ) : ℚ) = (ty : ℚ) - 2025 := by
    have := Nat.cast_sub (R := ℚ) (show 2025 ≤ ty by omega)
    simpa using this
  rw [c1, c2, mul_div_assoc]

lemma R_phase_at_target (r : ℚ) (ty : ℕ) (h1 : 2026 ≤ ty) (h2 : ty ≤ 2100) :
    R_phase r ty (ty - 2000) = r := by
  rw [R_phase_window_formula r ty (ty - 2000) h1 (by omega) le_rfl]
  have c3 : ((ty - 2000 : ℕ) : ℚ) - 25 = (ty : ℚ) - 2025 := by
    have := Nat.cast_sub (R := ℚ) (show 2000 ≤ ty by omega)
    simp only [this]
    push_cast
    ring
  have hne : ((ty : ℚ) - 2025) ≠ 0 := by
    have : (2026 : ℚ) ≤ (ty : ℚ) := by exact_mod_cast h1
    intro h
    linarith
  rw [c3, div_self hne, mul_one]

lemma R_phase_mem (r : ℚ) (ty k : ℕ) (hr : 0 ≤ r) (h1 : 2025 ≤ ty) :
    0 ≤ R_phase r ty k ∧ R_phase r ty k ≤ r := by
  by_cases hw : 25 ≤ k ∧ k ≤ ty - 2000
  · rw [R_phase_window r ty k h1 hw.1 hw.2]
    by_cases hd : 1 ≤ ty - 2025
    · rw [linspace_succ_eq r _ _ hd]
      have hdpos : (0 : ℚ) < ((ty - 2025 : ℕ) : ℚ) := by exact_mod_cast hd
      constructor
      · exact div_nonneg (mul_nonneg hr (Nat.cast_nonneg _)) (Nat.cast_nonneg _)
      · rw [div_le_iff₀ hdpos]
        have hj : ((k - 25 : ℕ) : ℚ) ≤ ((ty - 2025 : ℕ) : ℚ) := by
          exact_mod_cast (show k - 25 ≤ ty - 2025 by omega)
        exact mul_le_mul_of_nonneg_left hj hr
    · have hd0 : ty - 2025 = 0 := by omega
      rw [hd0, linspace_num_le_one r _ _ (by norm_num)]
      exact ⟨le_rfl, hr⟩
  · have hc : ¬ (start_index ≤ k ∧ k ≤ target_index ty) := by
      simp only [start_index, target_index]
      omega
    rw [R_phase, if_neg hc]
    by_cases ha : target_index ty + 1 ≤ k
    · rw [if_pos ha]
      exact ⟨hr, le_rfl⟩
    · rw [if_neg ha]
      exact ⟨le_rfl, hr⟩

lemma R_phase_step (r : ℚ) (ty : ℕ) (hr : 0 ≤ r) (h1 : 2025 ≤ ty) (n : ℕ) :
    R_phase r ty n ≤ R_phase r ty (n + 1) := by
  by_cases hb : n + 1 < 25
  · rw [R_phase_before r ty n h1 (by omega), R_phase_before r ty (n + 1) h1 hb]
  · by_cases hn : n < 25
    · have h24 : n = 24 := by omega
      subst h24
      rw [R_phase_before r ty 24 h1 (by omega)]
      by_cases h25 : 25 ≤ ty - 2000
      · rw [R_phase_window r ty 25 h1 le_rfl h25]
        have hz : (25 - 25 : ℕ) = 0 := rfl
        rw [hz, linspace_at_zero]
      · rw [R_phase_after r ty 25 (by omega) (by omega)]
        exact hr
    · by_cases h3 : n + 1 ≤ ty - 2000
      · have hd : 1 ≤ ty - 2025 := by omega
        rw [R_phase_window r ty n h1 (by omega) (by omega),
          R_phase_window r ty (n + 1) h1 (by omega) h3,
          linspace_succ_eq r _ _ hd, linspace_succ_eq r _ _ hd]
        have hdpos : (0 : ℚ) < ((ty - 2025 : ℕ) : ℚ) := by exact_mod_cast hd
        have hjj : ((n - 25 : ℕ) : ℚ) ≤ ((n + 1 - 25 : ℕ) : ℚ) := by
          exact_mod_cast (show n - 25 ≤ n + 1 - 25 by omega)
        exact (div_le_div_iff_of_pos_right hdpos).2
          (mul_le_mul_of_nonneg_left hjj hr)
      · by_cases h4 : n ≤ ty - 2000
        · rw [R_phase_after r ty (n + 1) (by omega) (by omega)]
          exact (R_phase_mem r ty n hr h1).2
        · rw [R_phase_after r ty n (by omega) (by omega),
            R_phase_after r ty (n + 1) (by omega) (by omega)]

lemma R_phase_mono (r : ℚ) (ty : ℕ) (hr : 0 ≤ r) (h1 : 2025 ≤ ty) :
    ∀ j k, j ≤ k → R_phase r ty j ≤ R_phase r ty k := by
  intro j k hjk
  exact monotone_nat_of_le_succ (R_phase_step r ty hr h1) hjk

lemma R_phase_zero_r (ty k : ℕ) : R_phase 0 ty k = 0 := by
  unfold R_phase linspace
  split_ifs <;> simp

/-! ### Adjusted-series lemmas -/

lemma scaleFrom_length (r : ℚ) (ty : ℕ) (vals : List ℚ) :
    ∀ base, (scaleFrom r ty base vals).length = vals.length := by
  induction vals with
  | nil => intro base; rfl
  | cons v rest ih =>
    intro base
    simp [scaleFrom, ih (base + 1)]

lemma scaleFrom_getD (r : ℚ) (ty : ℕ) (vals : List ℚ) :
    ∀ base i, i < vals.length →
      (scaleFrom r ty base vals).getD i 0 =
        vals.getD i 0 * (1 - R_phase r ty (base + i)) := by
  induction vals with
  | nil =>
    intro base i h
    simp at h
  | cons v rest ih =>
    intro base i h
    cases i with
    | zero => simp [scaleFrom]
    | succ n =>
      simp only [scaleFrom, List.getD_cons_succ]
      rw [ih (base + 1) n (by simpa using h)]
      have harg : base + 1 + n = base + (n + 1) := by omega
      rw [harg]

lemma adjustSeries_length (vals : List ℚ) (r : ℚ) (ty : ℕ) :
    (adjustSeries vals r ty).length = vals.length :=
  scaleFrom_length r ty vals 0

lemma adjustSeries_getD (vals : List ℚ) (r : ℚ) (ty : ℕ) (i : ℕ)
    (h : i < vals.length) :
    (adjustSeries vals r ty).getD i 0 =
      vals.getD i 0 * (1 - R_phase r ty i) := by
  have := scaleFrom_getD r ty vals 0 i h
  simpa using this

/-! ### Claim C2 -/

/-- C2 counterexample: the claim as stated includes the target year 2025,
where the built schedule at the target year is 0, not r (here r = 1),
because np.linspace(0, r, num=1) returns the single value 0. -/
theorem C2_cex :
    R_phase 1 2025 (target_index 2025) = 0 ∧
      ¬ (R_phase 1 2025 (target_index 2025) = 1) := by
  decide

/-- C2 (amended): for reduction fractions r in [0,1] and target years y
with 2025 < y ≤ 2100, the schedule is 0 strictly before 2025 and at 2025,
rises linearly (both endpoints included) from 0 at 2025 to r at y, equals
r at every year after y, and is monotonically non-decreasing. -/
theorem C2_main (r : ℚ) (ty : ℕ) (hr0 : 0 ≤ r) (hr1 : r ≤ 1)
    (hty1 : 2026 ≤ ty) (hty2 : ty ≤ 2100) :
    (∀ k, k < 25 → R_phase r ty k = 0) ∧
    R_phase r ty 25 = 0 ∧
    (∀ k, 25 ≤ k → k ≤ ty - 2000 →
      R_phase r ty k = r * (((k : ℚ) - 25) / ((ty : ℚ) - 2025))) ∧
    R_phase r ty (ty - 2000) = r ∧
    (∀ k, ty - 2000 < k → R_phase r ty k = r) ∧
    (∀ j k, j ≤ k → R_phase r ty j ≤ R_phase r ty k) := by
  refine ⟨?_, ?_, ?_, ?_, ?_, ?_⟩
  · intro k hk
    exact R_phase_before r ty k (by omega) hk
  · rw [R_phase_window r ty 25 (by omega) le_rfl (by omega)]
    have hz : (25 - 25 : ℕ) = 0 := rfl
    rw [hz, linspace_at_zero]
  · intro k hk1 hk2
    exact R_phase_window_formula r ty k hty1 hk1 hk2
  · exact R_phase_at_target r ty hty1 hty2
  · intro k hk
    exact R_phase_after r ty k (by omega) hk
  · exact R_phase_mono r ty hr0 (by omega)

/-- C2 witness: the amended statement instantiated at r = 1/2, y = 2050;
the schedule reaches 1/2 exactly at grid index 50. -/
theorem C2_main_w : R_phase (1/2) 2050 (2050 - 2000) = 1/2 :=
  (C2_main (1/2) 2050 (by norm_num) (by norm_num) (by norm_num)
    (by norm_num)).2.2.2.1

/-! ### Claim C3 -/

/-- C3: with target year equal to the ramp-start year 2025 and r = 1, the
code's schedule is 0 at 2025 (np.linspace(0, 1, num=1) = [0]) and only
reaches 1 from 2026 on, contradicting the documented single-point jump to
r at 2025. -/
theorem C3_bug :
    R_phase 1 2025 24 = 0 ∧ R_phase 1 2025 25 = 0 ∧
      R_phase 1 2025 26 = 1 ∧ R_phase 1 2025 100 = 1 := by
  decide

/-! ### Claim C7 -/

/-- C7: a region row (R5OECD) whose resampled value at year 2050 (grid
index 50) is X, adjusted with r = 1/2 and target year 2075, yields
X * (1 - (1/2) * (2050-2025)/(2075-2025)) = X * 3/4 at 2050. -/
theorem C7_main (row : Row) (X : ℚ) (hreg : row.region = "World|R5OECD")
    (hX : row.values.getD 50 0 = X) (hlen : 50 < row.values.length) :
    (adjustSeries row.values (1/2) 2075).getD 50 0 = X * (3/4) := by
  rw [adjustSeries_getD row.values (1/2) 2075 50 hlen, hX]
  have hRp : R_phase (1/2) 2075 50 = 1/4 := by
    rw [R_phase_window_formula (1/2) 2075 50 (by norm_num) (by norm_num)
      (by norm_num)]
    norm_num
  rw [hRp]
  norm_num

/-- C7 witness: the R5OECD row with constant baseline 8 yields 6 at grid
index 50 under r = 1/2, target year 2075. -/
theorem C7_main_w :
    (adjustSeries (mkRow "World|R5OECD" 8).values (1/2) 2075).getD 50 0 =
      8 * (3/4) :=
  C7_main (mkRow "World|R5OECD" 8) 8 (by rfl) (by decide) (by decide)

/-! ### Claim C8 -/

/-- C8: with reduction fraction 0 and any valid target year, the adjusted
series is identical to the original series. -/
theorem C8_main (vals : List ℚ) (ty : ℕ) (h1 : 2025 ≤ ty) (h2 : ty ≤ 2100) :
    adjustSeries vals 0 ty = vals := by
  unfold adjustSeries
  suffices h : ∀ base, scaleFrom 0 ty base vals = vals from h 0
  induction vals with
  | nil => intro base; rfl
  | cons v rest ih =>
    intro base
    simp [scaleFrom, R_phase_zero_r, ih (base + 1)]

/-- C8 witness: constant series 7 is untouched by r = 0, year 2050. -/
theorem C8_main_w :
    adjustSeries (List.replicate 101 (7 : ℚ)) 0 2050 =
      List.replicate 101 (7 : ℚ) :=
  C8_main (List.replicate 101 (7 : ℚ)) 2050 (by norm_num) (by norm_num)

/-! ### Claim C10 -/

/-- C10: for r in [0,1] and target years in [2025, 2100], every schedule
entry lies in [0, r]; hence every adjusted value of a non-negative series
lies between 0 and the corresponding baseline value. -/
theorem C10_main (r : ℚ) (ty : ℕ) (hr0 : 0 ≤ r) (hr1 : r ≤ 1)
    (h1 : 2025 ≤ ty) (h2 : ty ≤ 2100) :
    ∀ k, (0 ≤ R_phase r ty k ∧ R_phase r ty k ≤ r) ∧
      ∀ vals : List ℚ, (∀ v ∈ vals, 0 ≤ v) →
        0 ≤ (adjustSeries vals r ty).getD k 0 ∧
          (adjustSeries vals r ty).getD k 0 ≤ vals.getD k 0 := by
  intro k
  have hb := R_phase_mem r ty k hr0 h1
  refine ⟨hb, ?_⟩
  intro vals hv
  by_cases hk : k < vals.length
  · rw [adjustSeries_getD vals r ty k hk]
    have hvk : 0 ≤ vals.getD k 0 := by
      rw [List.getD_eq_getElem vals 0 hk]
      exact hv _ (List.getElem_mem hk)
    have hf1 : 0 ≤ 1 - R_phase r ty k := by linarith [hb.2]
    constructor
    · exact mul_nonneg hvk hf1
    · nlinarith [mul_nonneg hvk hb.1]
  · have hlen : (adjustSeries vals r ty).length ≤ k := by
      rw [adjustSeries_length]
      omega
    rw [List.getD_eq_default _ _ hlen]
    have : vals.length ≤ k := by omega
    rw [List.getD_eq_default _ _ this]
    exact ⟨le_rfl, le_rfl⟩

/-- C10 witness: at r = 1/2, year 2050, grid index 40 the schedule entry
lies in [0, 1/2]. -/
theorem C10_main_w :
    0 ≤ R_phase (1/2) 2050 40 ∧ R_phase (1/2) 2050 40 ≤ 1/2 :=
  (C10_main (1/2) 2050 (by norm_num) (by norm_num) (by norm_num)
    (by norm_num) 40).1

/-! ### List helper lemmas for the reassembly stage -/

lemma find?_append_of_none {α : Type} (p : α → Bool) (l1 l2 : List α)
    (h : ∀ x ∈ l1, p x = false) : (l1 ++ l2).find? p = l2.find? p := by
  induction l1 with
  | nil => rfl
  | cons a t ih =>
    have ha := h a (List.mem_cons_self a t)
    rw [List.cons_append, List.find?_cons_of_neg _ (by simp [ha])]
    exact ih (fun x hx => h x (List.mem_cons_of_mem a hx))

lemma filter_map_comm {α : Type} (f : α → α) (p : α → Bool)
    (hf : ∀ a, p (f a) = p a) (l : List α) :
    (l.map f).filter p = (l.filter p).map f := by
  induction l with
  | nil => rfl
  | cons a t ih =>
    by_cases h : p a
    · simp [List.filter_cons, hf, h, ih]
    · simp [List.filter_cons, hf, h, ih]

lemma length_filter_not_add {α : Type} (p : α → Bool) (l : List α) :
    (l.filter (fun a => !(p a))).length + (l.filter p).length = l.length := by
  induction l with
  | nil => rfl
  | cons a t ih =>
    by_cases h : p a <;> simp [List.filter_cons, h] <;> omega

lemma map_region_zipWith (ms : List Row) (vs : List (List ℚ))
    (h : ms.length ≤ vs.length) :
    (List.zipWith (fun m v => { m with values := v }) ms vs).map Row.region =
      ms.map Row.region := by
  induction ms generalizing vs with
  | nil => simp
  | cons m rest ih =>
    cases vs with
    | nil => simp at h
    | cons v vrest =>
      simp only [List.zipWith_cons_cons, List.map_cons]
      rw [ih vrest (by simpa using h)]

lemma filter_region_singleton (l : List Row) (reg : String)
    (h : (l.filter (fun row => row.region == reg)).length = 1) :
    ∃ x, l.filter (fun row => row.region == reg) = [x] ∧ x.region = reg := by
  obtain ⟨x, hx⟩ := List.length_eq_one.1 h
  refine ⟨x, hx, ?_⟩
  have hmem : x ∈ l.filter (fun row => row.region == reg) := by
    rw [hx]
    exact List.mem_singleton_self x
  exact eq_of_beq (List.mem_filter.1 hmem).2

lemma filter_of_filter_contains (tmpl : List Row) (reg : String)
    (hreg : regions_to_modify.contains reg = true) :
    (tmpl.filter (fun row => regions_to_modify.contains row.region)).filter
        (fun row => row.region == reg) =
      tmpl.filter (fun row => row.region == reg) := by
  rw [List.filter_filter]
  apply List.filter_congr
  intro a _
  by_cases h : (a.region == reg) = true
  · have hc : regions_to_modify.contains a.region = true := by
      rw [eq_of_beq h]
      exact hreg
    simp only [h, hc, Bool.true_and]
  · have h' : (a.region == reg) = false := by
      simpa using h
    simp [h']

lemma locRegions_cons (rows : List Row) (reg : String) (rest : List String) :
    locRegions rows (reg :: rest) =
      rows.filter (fun row => row.region == reg) ++ locRegions rows rest := rfl

lemma locRegions_nil (rows : List Row) : locRegions rows [] = [] := rfl

lemma adjustRegional_length (rows : List Row) (rs : List ℚ) (tys : List ℕ) :
    (adjustRegional rows rs tys).length =
      min rows.length (min rs.length tys.length) := by
  simp [adjustRegional, List.length_zipWith, List.length_zip]

/-! ### Claim C1 -/

/-- C1: evaluating the code at a dataset whose five regional fossil rows
appear in the caller order documented in the docstring (R5LAM, R5MAF,
R5ASIA, R5REF, R5OECD, constant series 1..5), with reduction vector
[1,0,0,0,0] (full cut for R5LAM) and target years 2025: the output row
labeled World|R5OECD carries R5LAM's adjusted series (the constant-1
baseline scaled by the r = 1 schedule, hence 0 from 2026 on), not R5OECD's
own baseline (constant 5) scaled by R5OECD's schedule (r = 0, which leaves
it at 5).  The metadata was reordered to the hard-coded
[R5OECD, R5LAM, R5MAF, R5REF, R5ASIA] while the value rows kept data-frame
order, so values are paired with another region's label. -/
theorem C1_bug :
    find_series (modify_scenario df0 rs0 tys0) "World|R5OECD" =
        some (adjustSeries (List.replicate 101 (1 : ℚ)) 1 2025) ∧
      (adjustSeries (List.replicate 101 (1 : ℚ)) 1 2025).getD 30 0 = 0 ∧
      find_series df0 "World|R5OECD" = some (List.replicate 101 (5 : ℚ)) ∧
      (5 : ℚ) * (1 - R_phase 0 2025 30) = 5 := by
  refine ⟨rfl, ?_, rfl, ?_⟩
  · rw [adjustSeries_getD _ _ _ _ (by decide)]
    rw [R_phase_after 1 2025 30 (by omega) (by omega)]
    simp
  · rw [R_phase_zero_r]
    norm_num

/-! ### Claim C4 -/

/-- C4 counterexample: on the concrete dataset the six replacement rows
are labeled World, R5OECD, R5LAM, R5MAF, R5REF, R5ASIA - not World
followed by the RegionSet order R5LAM, R5MAF, R5ASIA, R5REF, R5OECD. -/
theorem C4_cex :
    (replacement_rows df0 rs0 tys0).map Row.region =
        ["World", "World|R5OECD", "World|R5LAM", "World|R5MAF",
          "World|R5REF", "World|R5ASIA"] ∧
      ¬ ((replacement_rows df0 rs0 tys0).map Row.region =
        "World" :: REGIONS) := by
  refine ⟨rfl, ?_⟩
  intro h
  exact absurd h (by decide)

/-- C4 (amended): for any resampled dataset holding exactly one tracked
fossil-CO2 row per region of regions_to_replace, the six replacement rows
are ordered World first, then the five regional rows in the hard-coded
regions_to_modify order R5OECD, R5LAM, R5MAF, R5REF, R5ASIA. -/
theorem C4_main (df : List Row) (rs : List ℚ) (tys : List ℕ)
    (hcount : ∀ reg ∈ regions_to_replace,
      ((replacement_meta_template df).filter
        (fun row => row.region == reg)).length = 1)
    (h5 : (reg_CO2 df).length = 5) (hrs : rs.length = 5)
    (htys : tys.length = 5) :
    (replacement_rows df rs tys).map Row.region =
      "World" :: regions_to_modify := by
  obtain ⟨w, hw, hwreg⟩ :=
    filter_region_singleton _ _ (hcount "World" (by decide))
  obtain ⟨x1, hx1, hx1reg⟩ :=
    filter_region_singleton _ _ (hcount "World|R5OECD" (by decide))
  obtain ⟨x2, hx2, hx2reg⟩ :=
    filter_region_singleton _ _ (hcount "World|R5LAM" (by decide))
  obtain ⟨x3, hx3, hx3reg⟩ :=
    filter_region_singleton _ _ (hcount "World|R5MAF" (by decide))
  obtain ⟨x4, hx4, hx4reg⟩ :=
    filter_region_singleton _ _ (hcount "World|R5REF" (by decide))
  obtain ⟨x5, hx5, hx5reg⟩ :=
    filter_region_singleton _ _ (hcount "World|R5ASIA" (by decide))
  have hwm : world_meta (replacement_meta_template df) = [w] := hw
  have hr5 : r5_meta_ordered (replacement_meta_template df) =
      [x1, x2, x3, x4, x5] := by
    have hexp : r5_meta_ordered (replacement_meta_template df) =
        locRegions ((replacement_meta_template df).filter
            (fun row => regions_to_modify.contains row.region))
          ("World|R5OECD" :: "World|R5LAM" :: "World|R5MAF" ::
            "World|R5REF" :: "World|R5ASIA" :: []) := rfl
    rw [hexp, locRegions_cons, locRegions_cons, locRegions_cons,
      locRegions_cons, locRegions_cons, locRegions_nil,
      filter_of_filter_contains _ _ (by decide),
      filter_of_filter_contains _ _ (by decide),
      filter_of_filter_contains _ _ (by decide),
      filter_of_filter_contains _ _ (by decide),
      filter_of_filter_contains _ _ (by decide),
      hx1, hx2, hx3, hx4, hx5]
    rfl
  have hlen : (world_meta (replacement_meta_template df) ++
      r5_meta_ordered (replacement_meta_template df)).length ≤
      (world_co2_series (adjustRegional (reg_CO2 df) rs tys) ::
        (adjustRegional (reg_CO2 df) rs tys).map
          (fun row => row.values)).length := by
    rw [hwm, hr5]
    simp [adjustRegional_length, h5, hrs, htys]
  unfold replacement_rows
  rw [map_region_zipWith _ _ hlen, hwm, hr5]
  simp only [List.cons_append, List.nil_append, List.map_cons, List.map_nil,
    hwreg, hx1reg, hx2reg, hx3reg, hx4reg, hx5reg]
  rfl

/-- C4 witness: the amended ordering statement on the concrete dataset. -/
theorem C4_main_w :
    (replacement_rows df0 rs0 tys0).map Row.region =
      "World" :: regions_to_modify :=
  C4_main df0 rs0 tys0 (by decide) (by decide) (by decide) (by decide)

/-! ### Claim C9 -/

/-- C9 counterexample: the reduction fraction 2 lies outside [0,1], yet
modify_scenario's schedule construction computes on it without any
error: the builder succeeds and the un-clamped value 2 appears in the
schedule (so the adjusted series becomes baseline times (1-2)). -/
theorem C9_cex :
    ¬ accepts_r 2 ∧ (build_R_phase_row 2 2050).isOk = true ∧
      R_phase 2 2050 100 = 2 := by
  refine ⟨?_, rfl, ?_⟩
  · intro h
    exact absurd h.2 (by norm_num)
  · exact R_phase_after 2 2050 100 (by omega) (by omega)

/-- C9 (amended): range validation lives only in the input-collection UI,
whose dialog loops accept exactly r in [0,1] and years in [2025, 2100];
modify_scenario itself performs no validation: for any reduction fraction
whatsoever (in range or not) and any target year in the span, it builds
the schedule without error and propagates the un-clamped fraction. -/
theorem C9_main (r : ℚ) (yr : ℕ) (h1 : 2025 ≤ yr) (h2 : yr ≤ 2100) :
    (build_R_phase_row r yr).isOk = true ∧
    (∀ k, target_index yr < k → R_phase r yr k = r) ∧
    (accepts_r r ↔ 0 ≤ r ∧ r ≤ 1) ∧
    (accepts_year yr ↔ 2025 ≤ yr ∧ yr ≤ 2100) := by
  refine ⟨?_, ?_, Iff.rfl, ?_⟩
  · unfold build_R_phase_row
    rw [if_neg (by omega), if_neg (by omega)]
    rfl
  · intro k hk
    exact R_phase_after r yr k (by omega) hk
  · unfold accepts_year START_YEAR END_YEAR
    constructor
    · rintro ⟨-, h⟩
      exact h
    · intro h
      exact ⟨by omega, h⟩

/-- C9 witness: the amended statement instantiated at the out-of-range
fraction r = 2 with target year 2050. -/
theorem C9_main_w :
    (build_R_phase_row 2 2050).isOk = true ∧
    (∀ k, target_index 2050 < k → R_phase 2 2050 k = 2) ∧
    (accepts_r 2 ↔ 0 ≤ (2 : ℚ) ∧ (2 : ℚ) ≤ 1) ∧
    (accepts_year 2050 ↔ 2025 ≤ 2050 ∧ 2050 ≤ 2100) :=
  C9_main 2 2050 (by omega) (by omega)

/-! ### World-row lemmas for claims C5 and C6 -/

lemma set_world_values_region (w' : List ℚ) (row : Row) :
    (set_world_values w' row).region = row.region := by
  unfold set_world_values
  split <;> rfl

lemma set_world_values_variable (w' : List ℚ) (row : Row) :
    (set_world_values w' row).variable_name = row.variable_name := by
  unfold set_world_values
  split <;> rfl

lemma set_world_values_unit (w' : List ℚ) (row : Row) :
    (set_world_values w' row).unit = row.unit := by
  unfold set_world_values
  split <;> rfl

lemma is_replace_row_set (w' : List ℚ) (row : Row) :
    is_replace_row (set_world_values w' row) = is_replace_row row := by
  unfold is_replace_row
  rw [set_world_values_region, set_world_values_variable]

lemma is_reg_CO2_set (w' : List ℚ) (row : Row) :
    is_reg_CO2 (set_world_values w' row) = is_reg_CO2 row := by
  unfold is_reg_CO2
  rw [set_world_values_region, set_world_values_unit,
    set_world_values_variable]

lemma region_world_set (w' : List ℚ) (row : Row) :
    ((set_world_values w' row).region == "World") =
      (row.region == "World") := by
  rw [set_world_values_region]

lemma reg_CO2_mapWorld (df : List Row) (w' : List ℚ) :
    reg_CO2 (mapWorldValues df w') = reg_CO2 df := by
  unfold reg_CO2 mapWorldValues
  rw [filter_map_comm _ _ (is_reg_CO2_set w')]
  have hid : ∀ row ∈ df.filter is_reg_CO2, set_world_values w' row = row := by
    intro row hrow
    have h2 : is_reg_CO2 row = true := (List.mem_filter.1 hrow).2
    simp only [is_reg_CO2, Bool.and_eq_true, Bool.not_eq_true'] at h2
    have hregW : row.region ≠ "World" := by
      intro h
      have := h2.1.1
      rw [h] at this
      simp at this
    have hwf : is_world_fossil row = false := by
      unfold is_world_fossil
      have hb : (row.region == "World") = false := by
        simpa using hregW
      simp [hb]
    simp [set_world_values, hwf]
  calc (df.filter is_reg_CO2).map (set_world_values w')
      = (df.filter is_reg_CO2).map id := List.map_congr_left hid
    _ = df.filter is_reg_CO2 := List.map_id _

lemma tmpl_mapWorld (df : List Row) (w' : List ℚ) :
    replacement_meta_template (mapWorldValues df w') =
      (replacement_meta_template df).map (set_world_values w') := by
  unfold replacement_meta_template mapWorldValues
  exact filter_map_comm _ _ (is_replace_row_set w') df

lemma world_meta_map (tmpl : List Row) (w' : List ℚ) :
    world_meta (tmpl.map (set_world_values w')) =
      (world_meta tmpl).map (set_world_values w') :=
  filter_map_comm _ _ (region_world_set w') tmpl

lemma set_world_values_of_world (w' : List ℚ) (row : Row)
    (h : is_world_fossil row = true) :
    set_world_values w' row = { row with values := w' } := by
  simp [set_world_values, h]

lemma world_meta_facts (df : List Row) (w : Row)
    (hw : world_meta (replacement_meta_template df) = [w]) :
    (w.region == "World") = true ∧ (w.variable_name == var) = true := by
  have hwmem : w ∈ world_meta (replacement_meta_template df) := by
    rw [hw]
    exact List.mem_singleton_self w
  have hwreg : (w.region == "World") = true := (List.mem_filter.1 hwmem).2
  have hwt : w ∈ replacement_meta_template df := (List.mem_filter.1 hwmem).1
  have hwrep : is_replace_row w = true := (List.mem_filter.1 hwt).2
  refine ⟨hwreg, ?_⟩
  unfold is_replace_row at hwrep
  rw [Bool.and_eq_true] at hwrep
  exact hwrep.1

lemma base_run_no_world (df : List Row) :
    ∀ row ∈ base_run df, is_world_fossil row = false := by
  intro row hrow
  have hnot : (!(is_replace_row row)) = true := (List.mem_filter.1 hrow).2
  cases hb : is_world_fossil row with
  | false => rfl
  | true =>
    exfalso
    unfold is_world_fossil at hb
    rw [Bool.and_eq_true] at hb
    obtain ⟨hr, hv⟩ := hb
    have hrw : row.region = "World" := eq_of_beq hr
    have hcw : regions_to_replace.contains row.region = true := by
      rw [hrw]
      rfl
    have : is_replace_row row = true := by
      unfold is_replace_row
      rw [hv, hcw]
      rfl
    rw [this] at hnot
    simp at hnot

lemma find_world_eq (df : List Row) (rs : List ℚ) (tys : List ℕ) (w : Row)
    (hw : world_meta (replacement_meta_template df) = [w]) :
    (modify_scenario df rs tys).find? is_world_fossil =
      some { w with values :=
        world_co2_series (adjustRegional (reg_CO2 df) rs tys) } := by
  obtain ⟨hwreg, hwvar⟩ := world_meta_facts df w hw
  unfold modify_scenario
  rw [find?_append_of_none _ _ _ (base_run_no_world df)]
  unfold replacement_rows
  rw [hw, List.singleton_append, List.zipWith_cons_cons]
  rw [List.find?_cons_of_pos]
  show is_world_fossil _ = true
  show (w.region == "World" && w.variable_name == var) = true
  rw [hwreg, hwvar]
  rfl

lemma world_co2_series_getD (rows : List Row) (k : ℕ) (hk : k < 101) :
    (world_co2_series rows).getD k 0 =
      (rows.map (fun row => row.values.getD k 0)).sum := by
  unfold world_co2_series
  rw [List.getD_eq_getElem?_getD, List.getElem?_map, List.getElem?_range hk]
  rfl

/-! ### Claim C5 -/

/-- C5: for any resampled dataset with a single World fossil-CO2 row, the
World row of the reassembled output carries exactly the per-year sum of
the adjusted regional rows; the prior World values are never referenced -
overwriting them with any list w' leaves the output World series
unchanged (still the sum of the adjusted regional series of the original
dataset). -/
theorem C5_main (df : List Row) (rs : List ℚ) (tys : List ℕ) (w : Row)
    (hw : world_meta (replacement_meta_template df) = [w]) :
    ((modify_scenario df rs tys).find? is_world_fossil).map Row.values =
        some (world_co2_series (adjustRegional (reg_CO2 df) rs tys)) ∧
      (∀ k, k < 101 →
        (world_co2_series (adjustRegional (reg_CO2 df) rs tys)).getD k 0 =
          ((adjustRegional (reg_CO2 df) rs tys).map
            (fun row => row.values.getD k 0)).sum) ∧
      (∀ w' : List ℚ,
        ((modify_scenario (mapWorldValues df w') rs tys).find?
            is_world_fossil).map Row.values =
          some (world_co2_series (adjustRegional (reg_CO2 df) rs tys))) := by
  refine ⟨?_, ?_, ?_⟩
  · rw [find_world_eq df rs tys w hw]
    rfl
  · intro k hk
    exact world_co2_series_getD _ k hk
  · intro w'
    have hwf : is_world_fossil w = true := by
      obtain ⟨h1, h2⟩ := world_meta_facts df w hw
      unfold is_world_fossil
      rw [h1, h2]
      rfl
    have hw' : world_meta (replacement_meta_template (mapWorldValues df w')) =
        [set_world_values w' w] := by
      rw [tmpl_mapWorld, world_meta_map, hw]
      rfl
    rw [find_world_eq (mapWorldValues df w') rs tys (set_world_values w' w)
      hw', reg_CO2_mapWorld]
    rfl

/-- C5 witness: the World output row of the concrete dataset equals the
sum of the adjusted regional series. -/
theorem C5_main_w :
    world_meta (replacement_meta_template df0) = [mkRow "World" 15] ∧
      ((modify_scenario df0 rs0 tys0).find? is_world_fossil).map Row.values =
        some (world_co2_series (adjustRegional (reg_CO2 df0) rs0 tys0)) :=
  ⟨rfl, (C5_main df0 rs0 tys0 (mkRow "World" 15) rfl).1⟩

/-! ### Claim C6 -/

/-- C6: when the dataset holds the six expected tracked rows (and the
regional selection yields five rows, matching the five caller entries),
reassembly preserves the row count, and every row that is not one of the
six tracked rows - by region or by variable, such as World|Bunkers -
appears unchanged field-for-field in the reassembled dataset. -/
theorem C6_main (df : List Row) (rs : List ℚ) (tys : List ℕ)
    (htmpl : (replacement_meta_template df).length = 6)
    (hW : (world_meta (replacement_meta_template df)).length = 1)
    (hR : (r5_meta_ordered (replacement_meta_template df)).length = 5)
    (h5 : (reg_CO2 df).length = 5) (hrs : rs.length = 5)
    (htys : tys.length = 5) :
    (modify_scenario df rs tys).length = df.length ∧
      ∀ row ∈ df, is_replace_row row = false →
        row ∈ modify_scenario df rs tys := by
  constructor
  · have hsplit := length_filter_not_add is_replace_row df
    have hbase : (base_run df).length + 6 = df.length := by
      unfold base_run
      unfold replacement_meta_template at htmpl
      omega
    have hrep : (replacement_rows df rs tys).length = 6 := by
      unfold replacement_rows
      rw [List.length_zipWith, List.length_append, hW, hR]
      simp [adjustRegional_length, h5, hrs, htys]
    show (base_run df ++ replacement_rows df rs tys).length = df.length
    rw [List.length_append, hrep]
    omega
  · intro row hrow hfalse
    have hmem : row ∈ base_run df :=
      List.mem_filter.2 ⟨hrow, by simp [hfalse]⟩
    exact List.mem_append_left _ hmem

/-- C6 witness: on the concrete dataset the row count is preserved and
the World|Bunkers row passes through unchanged. -/
theorem C6_main_w :
    (modify_scenario df0 rs0 tys0).length = df0.length ∧
      mkRow "World|Bunkers" 6 ∈ modify_scenario df0 rs0 tys0 :=
  ⟨(C6_main df0 rs0 tys0 rfl rfl rfl rfl rfl rfl).1,
    (C6_main df0 rs0 tys0 rfl rfl rfl rfl rfl rfl).2
      (mkRow "World|Bunkers" 6) (by decide) rfl⟩

end ModifyScenario
